import Mathlib

/-!
# Verification of the Bedrock Knowledge Base backend

A shallow embedding of the FastAPI backend in `backend/main.py` and of the
`BedrockKnowledgeBaseClient` in `test.py`, together with theorems settling
the frozen claims about its specification.

Modelling conventions:
* Upstream (boto3) JSON responses are embedded as structures whose fields are
  `Option`-valued, mirroring the keys the code reads with `dict.get`; an
  absent key is `none`.  The Python default argument of `.get` becomes
  `Option.getD`.
* Relevance scores are Python floats used only opaquely (passed through, or
  defaulted to `0.0`); they are embedded as `Rat`, which is exact and
  decidable.
* `metadata` dictionaries are opaque key→value mappings; they are embedded
  as association lists `List (String × String)`.
* A raised exception is embedded as `Except.error msg` where `msg` is the
  exception's message (`str(e)`).
* The outbound boto3 calls are oracles passed to the endpoint functions as
  function arguments of type `... → Except String <response>`; an endpoint
  makes no outbound call exactly when its result does not depend on the
  oracle.
* `datetime.utcnow().isoformat()` is an opaque `now : String` argument.
-/

set_option linter.unusedVariables false

/-- An HTTP error raised by an endpoint (`fastapi.HTTPException`). -/
structure HTTPException where
  status_code : Nat
  detail : String
deriving DecidableEq, Repr

/-! ## Upstream response shapes (as read by the code) -/

/-- The nested `s3Location` object of a retrieval record's location. -/
structure S3LocationJson where
  uri : Option String
deriving DecidableEq, Repr

/-- The nested `location` object of a retrieval record. -/
structure LocationJson where
  type : Option String
  s3Location : Option S3LocationJson
deriving DecidableEq, Repr

/-- The nested `content` object of a retrieval record. -/
structure ContentJson where
  text : Option String
deriving DecidableEq, Repr

/-- One element of `retrievalResults` in a boto3 `retrieve` response, and
equally one element of `retrievedReferences` in a citation group of a
`retrieve_and_generate` response: the code reads the keys `content`,
`score`, `location` and `metadata` from both (no `score` on references). -/
structure RetrievalResultJson where
  content : Option ContentJson
  score : Option Rat
  location : Option LocationJson
  metadata : Option (List (String × String))
deriving DecidableEq, Repr

/-- A boto3 `retrieve` response, as read by the code (`retrievalResults`). -/
structure RetrieveResponseJson where
  retrievalResults : Option (List RetrievalResultJson)
deriving DecidableEq, Repr

/-- The nested `output` object of a `retrieve_and_generate` response. -/
structure OutputJson where
  text : Option String
deriving DecidableEq, Repr

/-- One citation group of a `retrieve_and_generate` response. -/
structure CitationGroupJson where
  retrievedReferences : Option (List RetrievalResultJson)
deriving DecidableEq, Repr

/-- A boto3 `retrieve_and_generate` response, as read by the code
(`output`, `citations`). -/
structure RAGResponseJson where
  output : Option OutputJson
  citations : Option (List CitationGroupJson)
deriving DecidableEq, Repr

/-- One element of `knowledgeBaseSummaries` in a boto3
`list_knowledge_bases` response, as read by the code. -/
structure KBSummaryJson where
  knowledgeBaseId : Option String
  name : Option String
  description : Option String
  status : Option String
deriving DecidableEq, Repr

/-- A boto3 `list_knowledge_bases` response, as read by the code. -/
structure ListKBResponseJson where
  knowledgeBaseSummaries : Option (List KBSummaryJson)
deriving DecidableEq, Repr

/-! ## The client layer (`test.py`, class `BedrockKnowledgeBaseClient`)

Each method wraps its boto3 call in `try/except`; on exception it prints the
error and returns a neutral value (`{}` or `[]`).  The raw boto3 outcome is
passed in as an `Except`. -/

namespace BedrockKnowledgeBaseClient

/-- `query_knowledge_base` (test.py lines 82–122): returns the raw boto3
`retrieve` response, or `{}` if the call raised.  An empty dict read by
`main.py` behaves as a response with every key absent. -/
def query_knowledge_base (raw : Except String RetrieveResponseJson) :
    RetrieveResponseJson :=
  match raw with
  | .ok r => r
  | .error _ => { retrievalResults := none }

/-- `retrieve_and_generate` (test.py lines 124–165): returns the raw boto3
response, or `{}` if the call raised. -/
def retrieve_and_generate (raw : Except String RAGResponseJson) :
    RAGResponseJson :=
  match raw with
  | .ok r => r
  | .error _ => { output := none, citations := none }

/-- `list_knowledge_bases` (test.py lines 49–61): returns
`response.get('knowledgeBaseSummaries', [])`, or `[]` if the call raised. -/
def list_knowledge_bases (raw : Except String ListKBResponseJson) :
    List KBSummaryJson :=
  match raw with
  | .ok r => r.knowledgeBaseSummaries.getD []
  | .error _ => []

end BedrockKnowledgeBaseClient

/-! ## Request and response models (`backend/main.py` Pydantic models) -/

/-- `SearchRequest` (main.py lines 57–60).  Field bounds are checked by
`validSearchRequest` below, which embeds the Pydantic `Field` constraints. -/
structure SearchRequest where
  query : String
  max_results : Int
  knowledge_base_id : Option String
deriving DecidableEq, Repr

/-- `SummarizeRequest` (main.py lines 62–66). -/
structure SummarizeRequest where
  query : String
  max_results : Int
  knowledge_base_id : Option String
  model_arn : Option String
deriving DecidableEq, Repr

/-- `SearchResult` (main.py lines 68–73). -/
structure SearchResult where
  content : String
  score : Rat
  source_type : String
  source_location : Option String
  metadata : List (String × String)
deriving DecidableEq, Repr

/-- `SearchResponse` (main.py lines 75–80). -/
structure SearchResponse where
  query : String
  results : List SearchResult
  total_results : Nat
  knowledge_base_id : String
  timestamp : String
deriving DecidableEq, Repr

/-- `Citation` (main.py lines 82–85). -/
structure Citation where
  content : String
  source_location : Option String
  metadata : List (String × String)
deriving DecidableEq, Repr

/-- `SummarizeResponse` (main.py lines 87–93). -/
structure SummarizeResponse where
  query : String
  generated_response : String
  citations : List Citation
  knowledge_base_id : String
  model_used : String
  timestamp : String
deriving DecidableEq, Repr

/-- `HealthResponse` (main.py lines 95–100). -/
structure HealthResponse where
  status : String
  timestamp : String
  aws_region : String
  knowledge_base_id : String
  bedrock_available : Bool
deriving DecidableEq, Repr

/-- `KnowledgeBaseInfo` (main.py lines 102–106). -/
structure KnowledgeBaseInfo where
  knowledge_base_id : String
  name : String
  description : Option String
  status : String
deriving DecidableEq, Repr

/-! ## Request validation (Pydantic field constraints) -/

/-- The Pydantic `Field` constraints of `SearchRequest` (main.py lines
57–60): `query` has `min_length=1, max_length=1000`; `max_results` has
`ge=1, le=20`.  FastAPI rejects a request body violating these before the
endpoint handler runs. -/
def validSearchRequest (r : SearchRequest) : Bool :=
  1 ≤ r.query.length && r.query.length ≤ 1000 &&
    1 ≤ r.max_results && r.max_results ≤ 20

/-- The Pydantic `Field` constraints of `SummarizeRequest` (main.py lines
62–66): `query` has `min_length=1, max_length=1000`; `max_results` has
`ge=1, le=10`. -/
def validSummarizeRequest (r : SummarizeRequest) : Bool :=
  1 ≤ r.query.length && r.query.length ≤ 1000 &&
    1 ≤ r.max_results && r.max_results ≤ 10

/-! ## Normalization (the response normalizer) -/

/-- Python's `a or b` for `a : Optional[str]`: `None` and the empty string
are falsy, any other string is truthy.  Embeds `request.knowledge_base_id or
KNOWLEDGE_BASE_ID` (main.py lines 152, 213) and `request.model_arn or
MODEL_ARN` (line 214). -/
def pyOrStr (a : Option String) (b : String) : String :=
  match a with
  | none => b
  | some s => if s = "" then b else s

/-- The body of the `for result in retrieval_results` loop of
`search_knowledge_base` (main.py lines 170–192): normalizes one retrieval
record into a `SearchResult`. -/
def normalizeRetrievalResult (result : RetrievalResultJson) : SearchResult :=
  let content := ((result.content.getD { text := none }).text).getD
    "No content available"
  let score := result.score.getD 0
  let location := result.location.getD { type := none, s3Location := none }
  let source_type := location.type.getD "Unknown"
  let source_location :=
    if source_type = "S3" then
      some (((location.s3Location.getD { uri := none }).uri).getD
        "Unknown S3 location")
    else none
  let metadata := result.metadata.getD []
  { content := content, score := score, source_type := source_type,
    source_location := source_location, metadata := metadata }

/-- The body of the `for ref in references` loop of
`summarize_with_knowledge_base` (main.py lines 241–256): normalizes one
retrieved reference into a `Citation`.  The Python guard is
`if location and location.get('type') == 'S3'`; an absent `location` key
defaults to the falsy `{}`, whose `type` is also absent, so the guard is
equivalent to the nested `type` field being present and equal to `"S3"`. -/
def normalizeReference (ref : RetrievalResultJson) : Citation :=
  let content := ((ref.content.getD { text := none }).text).getD "No content"
  let location := ref.location.getD { type := none, s3Location := none }
  let source_location :=
    if location.type = some "S3" then
      some (((location.s3Location.getD { uri := none }).uri).getD
        "Unknown S3 location")
    else none
  let metadata := ref.metadata.getD []
  { content := content, source_location := source_location,
    metadata := metadata }

/-- Extraction of the generated text in `summarize_with_knowledge_base`
(main.py lines 230–232): `response.get('output', {}).get('text',
'No response generated')`. -/
def normalizeRAGText (response : RAGResponseJson) : String :=
  ((response.output.getD { text := none }).text).getD "No response generated"

/-- The citation-flattening loop of `summarize_with_knowledge_base`
(main.py lines 234–256): every retrieved reference of every citation group,
in encounter order, normalized by `normalizeReference`. -/
def normalizeRAGCitations (response : RAGResponseJson) : List Citation :=
  (response.citations.getD []).flatMap
    (fun citation => (citation.retrievedReferences.getD []).map normalizeReference)

/-- The parsing loop of `search_knowledge_base` (main.py lines 166–192):
`results.get('retrievalResults', [])`, each record normalized by
`normalizeRetrievalResult`, in order. -/
def parseRetrievalResults (results : RetrieveResponseJson) : List SearchResult :=
  (results.retrievalResults.getD []).map normalizeRetrievalResult

/-- The body of the `for kb in knowledge_bases` loop of
`list_knowledge_bases` (main.py lines 131–137). -/
def normalizeKBSummary (kb : KBSummaryJson) : KnowledgeBaseInfo :=
  { knowledge_base_id := kb.knowledgeBaseId.getD ""
    name := kb.name.getD "Unnamed"
    description := kb.description
    status := kb.status.getD "Unknown" }

/-- `model_arn.split('/')[-1] if '/' in model_arn else model_arn`
(main.py line 263), on lists of characters.  `pySplit` embeds Python's
`str.split` with a one-character separator (it keeps empty groups, so
`"a//b".split('/') = ['a', '', 'b']`). -/
def pySplit (sep : Char) : List Char → List (List Char)
  | [] => [[]]
  | c :: rest =>
    let r := pySplit sep rest
    if c = sep then [] :: r else (c :: r.headD []) :: r.tail

/-- `model_used` computation of `summarize_with_knowledge_base`
(main.py line 263). -/
def modelUsed (model_arn : String) : String :=
  if model_arn.data.contains '/' then
    String.mk ((pySplit '/' model_arn.data).getLastD [])
  else model_arn

/-! ## Endpoint handlers (`backend/main.py`)

Each handler takes the process-level configuration (`bedrock_client`,
which is `none` when client construction at startup raised; the configured
`KNOWLEDGE_BASE_ID` / `MODEL_ARN` / `AWS_REGION`), the raw outcome of the
outbound boto3 call as an oracle, the (already validated) request, and the
current timestamp.  It returns the serialized response or the raised
`HTTPException`. -/

/-- `GET /health` (main.py lines 109–118). -/
def health_check (AWS_REGION KNOWLEDGE_BASE_ID : String)
    (bedrock_client : Option Unit) (now : String) : HealthResponse :=
  { status := "healthy"
    timestamp := now
    aws_region := AWS_REGION
    knowledge_base_id := KNOWLEDGE_BASE_ID
    bedrock_available := bedrock_client.isSome }

/-- The `try` body of `GET /knowledge-bases` (main.py lines 127–139): the
client call and the normalization loop.  It is total in this model (the
client has already absorbed any boto3 exception), so its result is always
`.ok`; an `.error e` would be mapped to HTTP 500 by `list_knowledge_bases`
below. -/
def listKBTryBody (boto_list : Unit → Except String ListKBResponseJson) :
    Except String (List KnowledgeBaseInfo) :=
  let knowledge_bases := BedrockKnowledgeBaseClient.list_knowledge_bases
    (boto_list ())
  .ok (knowledge_bases.map normalizeKBSummary)

/-- `GET /knowledge-bases` (main.py lines 121–143). -/
def list_knowledge_bases (bedrock_client : Option Unit)
    (boto_list : Unit → Except String ListKBResponseJson) :
    Except HTTPException (List KnowledgeBaseInfo) :=
  match bedrock_client with
  | none => .error { status_code := 503, detail := "Bedrock client not available" }
  | some _ =>
    match listKBTryBody boto_list with
    | .ok result => .ok result
    | .error e =>
      .error { status_code := 500, detail := "Failed to list knowledge bases: " ++ e }

/-- The `try` body of `POST /search` (main.py lines 156–200): the client
call, the normalization loop and the response construction.  Total in this
model, since the client has already absorbed any boto3 exception and the
normalizer has no failure mode. -/
def searchTryBody (kb_id : String)
    (boto_retrieve : String → String → Int → Except String RetrieveResponseJson)
    (request : SearchRequest) (now : String) : Except String SearchResponse :=
  let results := BedrockKnowledgeBaseClient.query_knowledge_base
    (boto_retrieve kb_id request.query request.max_results)
  let search_results := parseRetrievalResults results
  .ok { query := request.query
        results := search_results
        total_results := search_results.length
        knowledge_base_id := kb_id
        timestamp := now }

/-- `POST /search` (main.py lines 146–204). -/
def search_knowledge_base (bedrock_client : Option Unit)
    (KNOWLEDGE_BASE_ID : String)
    (boto_retrieve : String → String → Int → Except String RetrieveResponseJson)
    (request : SearchRequest) (now : String) :
    Except HTTPException SearchResponse :=
  match bedrock_client with
  | none => .error { status_code := 503, detail := "Bedrock client not available" }
  | some _ =>
    let kb_id := pyOrStr request.knowledge_base_id KNOWLEDGE_BASE_ID
    if kb_id = "" || kb_id = "YOUR_KNOWLEDGE_BASE_ID_HERE" then
      .error { status_code := 400, detail := "Knowledge base ID not configured" }
    else
      match searchTryBody kb_id boto_retrieve request now with
      | .ok resp => .ok resp
      | .error e => .error { status_code := 500, detail := "Search failed: " ++ e }

/-- The `try` body of `POST /summarize` (main.py lines 219–265).  Total in
this model, for the same reasons as `searchTryBody`. -/
def summarizeTryBody (kb_id model_arn : String)
    (boto_rag : String → String → String → Int → Except String RAGResponseJson)
    (request : SummarizeRequest) (now : String) :
    Except String SummarizeResponse :=
  let response := BedrockKnowledgeBaseClient.retrieve_and_generate
    (boto_rag kb_id request.query model_arn request.max_results)
  let generated_text := normalizeRAGText response
  let citations := normalizeRAGCitations response
  .ok { query := request.query
        generated_response := generated_text
        citations := citations
        knowledge_base_id := kb_id
        model_used := modelUsed model_arn
        timestamp := now }

/-- `POST /summarize` (main.py lines 207–269). -/
def summarize_with_knowledge_base (bedrock_client : Option Unit)
    (KNOWLEDGE_BASE_ID MODEL_ARN : String)
    (boto_rag : String → String → String → Int → Except String RAGResponseJson)
    (request : SummarizeRequest) (now : String) :
    Except HTTPException SummarizeResponse :=
  match bedrock_client with
  | none => .error { status_code := 503, detail := "Bedrock client not available" }
  | some _ =>
    let kb_id := pyOrStr request.knowledge_base_id KNOWLEDGE_BASE_ID
    let model_arn := pyOrStr request.model_arn MODEL_ARN
    if kb_id = "" || kb_id = "YOUR_KNOWLEDGE_BASE_ID_HERE" then
      .error { status_code := 400, detail := "Knowledge base ID not configured" }
    else
      match summarizeTryBody kb_id model_arn boto_rag request now with
      | .ok resp => .ok resp
      | .error e =>
        .error { status_code := 500, detail := "Summarization failed: " ++ e }

/-! ## Helper lemmas about `pySplit` -/

theorem pySplit_ne_nil (sep : Char) (cs : List Char) : pySplit sep cs ≠ [] := by
  cases cs with
  | nil => simp [pySplit]
  | cons c rest => by_cases hc : c = sep <;> simp [pySplit, hc]

theorem pySplit_of_not_mem (sep : Char) (cs : List Char) (h : sep ∉ cs) :
    pySplit sep cs = [cs] := by
  induction cs with
  | nil => simp [pySplit]
  | cons c rest ih =>
    have hc : ¬ c = sep := fun e => h (e ▸ List.mem_cons_self c rest)
    have hrest : sep ∉ rest := fun e => h (List.mem_cons_of_mem _ e)
    simp [pySplit, hc, ih hrest]

theorem two_le_length_pySplit (sep : Char) (cs : List Char) (h : sep ∈ cs) :
    2 ≤ (pySplit sep cs).length := by
  induction cs with
  | nil => simp at h
  | cons c rest ih =>
    have h1 : 1 ≤ (pySplit sep rest).length :=
      List.length_pos.mpr (pySplit_ne_nil sep rest)
    by_cases hc : c = sep
    · simp only [pySplit, if_pos hc, List.length_cons]
      omega
    · have hrest : sep ∈ rest := by
        rcases List.mem_cons.mp h with h1 | h2
        · exact absurd h1.symm hc
        · exact h2
      have h2 := ih hrest
      simp only [pySplit, if_neg hc, List.length_cons, List.length_tail]
      omega

theorem pySplit_getLastD_not_mem (sep : Char) (cs : List Char) :
    sep ∉ (pySplit sep cs).getLastD [] := by
  induction cs with
  | nil => simp [pySplit]
  | cons c rest ih =>
    by_cases hc : c = sep
    · simp only [pySplit, if_pos hc]
      rw [List.getLastD_cons]
      exact ih
    · simp only [pySplit, if_neg hc]
      rw [List.getLastD_cons]
      cases hps : pySplit sep rest with
      | nil => exact absurd hps (pySplit_ne_nil sep rest)
      | cons g gs =>
        rw [hps] at ih
        simp only [List.tail_cons, List.headD_cons]
        cases gs with
        | nil =>
          rw [List.getLastD_nil]
          rw [List.getLastD_cons, List.getLastD_nil] at ih
          intro hmem
          rcases List.mem_cons.mp hmem with h1 | h2
          · exact hc h1.symm
          · exact ih h2
        | cons g2 gs2 =>
          rw [List.getLastD_cons] at ih ⊢
          rw [List.getLastD_cons] at ih
          exact ih

theorem pySplit_last_suffix (sep : Char) (cs : List Char) (h : sep ∈ cs) :
    ∃ p, cs = p ++ sep :: (pySplit sep cs).getLastD [] := by
  induction cs with
  | nil => simp at h
  | cons c rest ih =>
    by_cases hc : c = sep
    · by_cases hrest : sep ∈ rest
      · obtain ⟨p, hp⟩ := ih hrest
        refine ⟨sep :: p, ?_⟩
        simp only [pySplit, if_pos hc]
        rw [List.getLastD_cons, List.cons_append, hc]
        exact congrArg (fun l => sep :: l) hp
      · refine ⟨[], ?_⟩
        simp only [pySplit, if_pos hc]
        rw [pySplit_of_not_mem sep rest hrest]
        rw [List.getLastD_cons, List.getLastD_cons, List.getLastD_nil,
          List.nil_append, hc]
    · have hrest : sep ∈ rest := by
        rcases List.mem_cons.mp h with h1 | h2
        · exact absurd h1.symm hc
        · exact h2
      obtain ⟨p, hp⟩ := ih hrest
      have hlen := two_le_length_pySplit sep rest hrest
      refine ⟨c :: p, ?_⟩
      simp only [pySplit, if_neg hc]
      rw [List.getLastD_cons]
      cases hps : pySplit sep rest with
      | nil => exact absurd hps (pySplit_ne_nil sep rest)
      | cons g gs =>
        rw [hps] at hp hlen
        simp only [List.tail_cons, List.headD_cons]
        cases gs with
        | nil => simp at hlen
        | cons g2 gs2 =>
          rw [List.getLastD_cons]
          rw [List.getLastD_cons, List.getLastD_cons] at hp
          rw [List.cons_append]
          exact congrArg (fun l => c :: l) hp

/-- `modelUsed` returns the substring after the last separator: when `arn`
contains a slash, `arn` decomposes as a prefix, then a slash, then
`modelUsed arn`, and `modelUsed arn` itself contains no slash (which makes
the slash in the decomposition the last one). -/
theorem modelUsed_after_last_slash (arn : String) (h : '/' ∈ arn.data) :
    (∃ p, arn.data = p ++ '/' :: (modelUsed arn).data) ∧
      '/' ∉ (modelUsed arn).data := by
  have hc : arn.data.contains '/' = true := by
    simp only [List.contains, List.elem_eq_mem, decide_eq_true_eq]
    exact h
  have hmu : modelUsed arn = String.mk ((pySplit '/' arn.data).getLastD []) := by
    unfold modelUsed
    rw [if_pos hc]
  rw [hmu]
  exact ⟨pySplit_last_suffix '/' arn.data h, pySplit_getLastD_not_mem '/' arn.data⟩

/-! ## Claim theorems -/

/-- C5: `POST /search` request validation requires the query to be 1–1000
characters and `max_results` to be in 1–20; a request with an empty query is
rejected whatever its other fields are, and a request with `max_results=21`
is rejected. -/
theorem C5_search_request_validation (r : SearchRequest) :
    (validSearchRequest r = true ↔
      (1 ≤ r.query.length ∧ r.query.length ≤ 1000 ∧
        1 ≤ r.max_results ∧ r.max_results ≤ 20)) ∧
    (r.query = "" → validSearchRequest r = false) ∧
    (r.max_results = 21 → validSearchRequest r = false) := by
  refine ⟨?_, fun h => ?_, fun h => ?_⟩
  · simp [validSearchRequest, and_assoc]
  · simp [validSearchRequest, h]
  · simp [validSearchRequest, h]

/-- Witness for C5 at concrete requests. -/
theorem C5_search_request_validation_witness :
    validSearchRequest ⟨"", 5, some "kb"⟩ = false ∧
    validSearchRequest ⟨"hello", 21, none⟩ = false :=
  ⟨(C5_search_request_validation _).2.1 rfl,
    (C5_search_request_validation _).2.2 rfl⟩

/-- C8: `GET /health` is a total function (its handler has no raise path):
it always returns a record with status "healthy", the configured region and
knowledge-base id, and `bedrock_available` false exactly when the client
failed to construct at startup (`bedrock_client = none`) and true when
construction succeeded. -/
theorem C8_health_check_total (AWS_REGION KNOWLEDGE_BASE_ID now : String)
    (bedrock_client : Option Unit) :
    (health_check AWS_REGION KNOWLEDGE_BASE_ID bedrock_client now).status
        = "healthy" ∧
    (health_check AWS_REGION KNOWLEDGE_BASE_ID bedrock_client now).aws_region
        = AWS_REGION ∧
    (health_check AWS_REGION KNOWLEDGE_BASE_ID bedrock_client now).knowledge_base_id
        = KNOWLEDGE_BASE_ID ∧
    ((health_check AWS_REGION KNOWLEDGE_BASE_ID bedrock_client now).bedrock_available
        = false ↔ bedrock_client = none) ∧
    ((health_check AWS_REGION KNOWLEDGE_BASE_ID bedrock_client now).bedrock_available
        = true ↔ bedrock_client ≠ none) := by
  cases bedrock_client <;> simp [health_check]

/-- Witness for C8 at a concrete configuration. -/
theorem C8_health_check_total_witness :
    (health_check "us-west-2" "DFVMT0Y6LF" none "t").bedrock_available = false ∧
    (health_check "us-west-2" "DFVMT0Y6LF" (some ()) "t").bedrock_available = true :=
  ⟨(C8_health_check_total "us-west-2" "DFVMT0Y6LF" "t" none).2.2.2.1.mpr rfl,
    (C8_health_check_total "us-west-2" "DFVMT0Y6LF" "t" (some ())).2.2.2.2.mpr
      (by simp)⟩

/-- C10: for both `POST /search` and `POST /summarize`, an empty-string
`knowledge_base_id` override is treated exactly like an absent one — Python's
`request.knowledge_base_id or KNOWLEDGE_BASE_ID` treats `""` as falsy, so the
configured default becomes the effective id and the endpoint behaves
identically on both requests. -/
theorem C10_empty_override_like_absent (KNOWLEDGE_BASE_ID MODEL_ARN now : String)
    (bedrock_client : Option Unit)
    (f : String → String → Int → Except String RetrieveResponseJson)
    (g : String → String → String → Int → Except String RAGResponseJson)
    (sreq : SearchRequest) (mreq : SummarizeRequest) :
    pyOrStr (some "") KNOWLEDGE_BASE_ID = KNOWLEDGE_BASE_ID ∧
    pyOrStr none KNOWLEDGE_BASE_ID = KNOWLEDGE_BASE_ID ∧
    (∀ s, s ≠ "" → pyOrStr (some s) KNOWLEDGE_BASE_ID = s) ∧
    search_knowledge_base bedrock_client KNOWLEDGE_BASE_ID f
        { sreq with knowledge_base_id := some "" } now =
      search_knowledge_base bedrock_client KNOWLEDGE_BASE_ID f
        { sreq with knowledge_base_id := none } now ∧
    summarize_with_knowledge_base bedrock_client KNOWLEDGE_BASE_ID MODEL_ARN g
        { mreq with knowledge_base_id := some "" } now =
      summarize_with_knowledge_base bedrock_client KNOWLEDGE_BASE_ID MODEL_ARN g
        { mreq with knowledge_base_id := none } now := by
  refine ⟨rfl, rfl, fun s hs => ?_, ?_, ?_⟩
  · simp [pyOrStr, hs]
  · cases bedrock_client <;>
      simp [search_knowledge_base, pyOrStr, searchTryBody]
  · cases bedrock_client <;>
      simp [summarize_with_knowledge_base, pyOrStr, summarizeTryBody]

/-- Witness for C10 at a concrete configuration. -/
theorem C10_empty_override_like_absent_witness :
    search_knowledge_base (some ()) "KB123" (fun _ _ _ => .error "boom")
        (⟨"q", 5, some ""⟩ : SearchRequest) "t" =
      search_knowledge_base (some ()) "KB123" (fun _ _ _ => .error "boom")
        (⟨"q", 5, none⟩ : SearchRequest) "t" :=
  (C10_empty_override_like_absent "KB123" "m" "t" (some ())
    (fun _ _ _ => .error "boom") (fun _ _ _ _ => .error "boom")
    ⟨"q", 5, none⟩ ⟨"q", 5, none, none⟩).2.2.2.1

/-- C6: for both `POST /search` and `POST /summarize`, when the effective
knowledge-base id (request override, else configured default) is the empty
string or the placeholder sentinel, the endpoint raises HTTP 400
"Knowledge base ID not configured".  The boto3 oracles `f` and `g` are
universally quantified and absent from the conclusion, so the result is
independent of the outbound call: no outbound call is observable. -/
theorem C6_unconfigured_id_rejected (KNOWLEDGE_BASE_ID MODEL_ARN now : String)
    (f : String → String → Int → Except String RetrieveResponseJson)
    (g : String → String → String → Int → Except String RAGResponseJson)
    (sreq : SearchRequest) (mreq : SummarizeRequest)
    (hs : pyOrStr sreq.knowledge_base_id KNOWLEDGE_BASE_ID = "" ∨
      pyOrStr sreq.knowledge_base_id KNOWLEDGE_BASE_ID
        = "YOUR_KNOWLEDGE_BASE_ID_HERE")
    (hm : pyOrStr mreq.knowledge_base_id KNOWLEDGE_BASE_ID = "" ∨
      pyOrStr mreq.knowledge_base_id KNOWLEDGE_BASE_ID
        = "YOUR_KNOWLEDGE_BASE_ID_HERE") :
    search_knowledge_base (some ()) KNOWLEDGE_BASE_ID f sreq now =
      .error { status_code := 400, detail := "Knowledge base ID not configured" } ∧
    summarize_with_knowledge_base (some ()) KNOWLEDGE_BASE_ID MODEL_ARN g mreq now =
      .error { status_code := 400, detail := "Knowledge base ID not configured" } := by
  constructor
  · rcases hs with h | h <;> simp [search_knowledge_base, h]
  · rcases hm with h | h <;> simp [summarize_with_knowledge_base, h]

/-- Witness for C6: default id equal to the placeholder, no override. -/
theorem C6_unconfigured_id_rejected_witness :
    search_knowledge_base (some ()) "YOUR_KNOWLEDGE_BASE_ID_HERE"
        (fun _ _ _ => .error "unreachable")
        (⟨"q", 5, none⟩ : SearchRequest) "t" =
      .error { status_code := 400, detail := "Knowledge base ID not configured" } ∧
    summarize_with_knowledge_base (some ()) "YOUR_KNOWLEDGE_BASE_ID_HERE" "m"
        (fun _ _ _ _ => .error "unreachable")
        (⟨"q", 5, none, none⟩ : SummarizeRequest) "t" =
      .error { status_code := 400, detail := "Knowledge base ID not configured" } :=
  C6_unconfigured_id_rejected "YOUR_KNOWLEDGE_BASE_ID_HERE" "m" "t"
    (fun _ _ _ => .error "unreachable") (fun _ _ _ _ => .error "unreachable")
    ⟨"q", 5, none⟩ ⟨"q", 5, none, none⟩ (Or.inr rfl) (Or.inr rfl)

/-- C4: a retrieval record's source kind is the nested location-type field,
defaulting to the code's unknown sentinel (the literal `"Unknown"`) when the
location or its type is absent; for an `"S3"`-typed location the normalized
`source_location` is the nested URI, defaulting to the unknown-location
sentinel (the literal `"Unknown S3 location"`) when the URI is absent; for a
location of any other type `source_location` is unset (`none`). -/
theorem C4_source_type_and_location (r : RetrievalResultJson)
    (loc : LocationJson) (s3 : S3LocationJson) :
    (r.location = none →
      (normalizeRetrievalResult r).source_type = "Unknown" ∧
      (normalizeRetrievalResult r).source_location = none) ∧
    (r.location = some loc → loc.type = none →
      (normalizeRetrievalResult r).source_type = "Unknown" ∧
      (normalizeRetrievalResult r).source_location = none) ∧
    (∀ t, r.location = some loc → loc.type = some t →
      (normalizeRetrievalResult r).source_type = t) ∧
    (∀ uri, r.location = some loc → loc.type = some "S3" →
      loc.s3Location = some s3 → s3.uri = some uri →
      (normalizeRetrievalResult r).source_location = some uri) ∧
    (r.location = some loc → loc.type = some "S3" → loc.s3Location = none →
      (normalizeRetrievalResult r).source_location = some "Unknown S3 location") ∧
    (r.location = some loc → loc.type = some "S3" → loc.s3Location = some s3 →
      s3.uri = none →
      (normalizeRetrievalResult r).source_location = some "Unknown S3 location") ∧
    (∀ t, r.location = some loc → loc.type = some t → t ≠ "S3" →
      (normalizeRetrievalResult r).source_location = none) := by
  refine ⟨fun h => ?_, fun h ht => ?_, fun t h ht => ?_, fun uri h ht hs hu => ?_,
    fun h ht hs => ?_, fun h ht hs hu => ?_, fun t h ht hne => ?_⟩ <;>
    simp_all [normalizeRetrievalResult]

/-- Witness for C4: an S3-typed location with a URI, and an OTHER-typed
location. -/
theorem C4_source_type_and_location_witness :
    (normalizeRetrievalResult ⟨none, none,
        some ⟨some "S3", some ⟨some "s3://bucket/key"⟩⟩, none⟩).source_location
      = some "s3://bucket/key" ∧
    (normalizeRetrievalResult ⟨none, none,
        some ⟨some "S3", some ⟨some "s3://bucket/key"⟩⟩, none⟩).source_type
      = "S3" ∧
    (normalizeRetrievalResult ⟨none, none,
        some ⟨some "WEB", none⟩, none⟩).source_location = none :=
  ⟨(C4_source_type_and_location _ ⟨some "S3", some ⟨some "s3://bucket/key"⟩⟩
      ⟨some "s3://bucket/key"⟩).2.2.2.1 "s3://bucket/key" rfl rfl rfl rfl,
    (C4_source_type_and_location _ ⟨some "S3", some ⟨some "s3://bucket/key"⟩⟩
      ⟨some "s3://bucket/key"⟩).2.2.1 "S3" rfl rfl,
    (C4_source_type_and_location _ ⟨some "WEB", none⟩
      ⟨none⟩).2.2.2.2.2.2 "WEB" rfl rfl (by decide)⟩

/-- C2 fails as stated on the citation path: the claim says the same
"no content available" sentinel applies to citations, but
`summarize_with_knowledge_base` uses the distinct default `'No content'`
(main.py line 242), not `'No content available'` (main.py line 171): a
retrieved reference missing content normalizes to `"No content"`. -/
theorem C2_counterexample :
    (normalizeReference ⟨none, none, none, none⟩).content = "No content" ∧
    (normalizeReference ⟨none, none, none, none⟩).content
      ≠ "No content available" := by
  constructor
  · rfl
  · decide

/-- C2 (amended): a retrieval record missing the nested content text
normalizes to `"No content available"` and one missing the score normalizes
to score 0 (= 0.0); a citation reference missing the nested content text
normalizes to the distinct `"No content"` sentinel. -/
theorem C2_amended_content_and_score_defaults (r : RetrievalResultJson) :
    (r.content = none →
      (normalizeRetrievalResult r).content = "No content available" ∧
      (normalizeReference r).content = "No content") ∧
    (∀ c, r.content = some c → c.text = none →
      (normalizeRetrievalResult r).content = "No content available" ∧
      (normalizeReference r).content = "No content") ∧
    (r.score = none → (normalizeRetrievalResult r).score = 0) := by
  refine ⟨fun h => ?_, fun c hc ht => ?_, fun h => ?_⟩ <;>
    simp_all [normalizeRetrievalResult, normalizeReference]

/-- Witness for the amended C2 at concrete records. -/
theorem C2_amended_content_and_score_defaults_witness :
    (normalizeRetrievalResult ⟨none, none, none, none⟩).content
      = "No content available" ∧
    (normalizeRetrievalResult ⟨some ⟨none⟩, some 1, none, none⟩).content
      = "No content available" ∧
    (normalizeRetrievalResult ⟨none, none, none, none⟩).score = 0 :=
  ⟨((C2_amended_content_and_score_defaults ⟨none, none, none, none⟩).1 rfl).1,
    ((C2_amended_content_and_score_defaults ⟨some ⟨none⟩, some 1, none, none⟩).2.1
      ⟨none⟩ rfl rfl).1,
    (C2_amended_content_and_score_defaults ⟨none, none, none, none⟩).2.2 rfl⟩

/-- C9: the normalization performed by `POST /search` and `POST /summarize`
is total — every normalizer below is a total Lean function, so no input can
make it raise — and every absent field resolves to its documented default:
content text to its sentinel, score to 0.0, absent location to source type
"Unknown" with no source location, absent URI under an S3 location to the
unknown-location sentinel, absent metadata to the empty mapping, absent
output text to "No response generated", and absent citation or
retrieved-reference lists to no citations. -/
theorem C9_normalization_total (r : RetrievalResultJson) (loc : LocationJson)
    (s3 : S3LocationJson) (resp : RAGResponseJson) (grp : CitationGroupJson)
    (results : RetrieveResponseJson) :
    (r.content = none →
      (normalizeRetrievalResult r).content = "No content available") ∧
    (∀ c, r.content = some c → c.text = none →
      (normalizeRetrievalResult r).content = "No content available") ∧
    (r.score = none → (normalizeRetrievalResult r).score = 0) ∧
    (r.location = none →
      (normalizeRetrievalResult r).source_type = "Unknown" ∧
      (normalizeRetrievalResult r).source_location = none) ∧
    (r.location = some loc → loc.type = none →
      (normalizeRetrievalResult r).source_type = "Unknown" ∧
      (normalizeRetrievalResult r).source_location = none) ∧
    (r.location = some loc → loc.type = some "S3" → loc.s3Location = none →
      (normalizeRetrievalResult r).source_location = some "Unknown S3 location") ∧
    (r.location = some loc → loc.type = some "S3" → loc.s3Location = some s3 →
      s3.uri = none →
      (normalizeRetrievalResult r).source_location = some "Unknown S3 location") ∧
    (r.metadata = none → (normalizeRetrievalResult r).metadata = [] ∧
      (normalizeReference r).metadata = []) ∧
    (r.content = none → (normalizeReference r).content = "No content") ∧
    (r.location = none → (normalizeReference r).source_location = none) ∧
    (results.retrievalResults = none → parseRetrievalResults results = []) ∧
    (resp.output = none → normalizeRAGText resp = "No response generated") ∧
    (∀ o, resp.output = some o → o.text = none →
      normalizeRAGText resp = "No response generated") ∧
    (resp.citations = none → normalizeRAGCitations resp = []) ∧
    (grp.retrievedReferences = none →
      normalizeRAGCitations ⟨resp.output, some [grp]⟩ = []) := by
  refine ⟨fun h => ?_, fun c hc ht => ?_, fun h => ?_, fun h => ?_,
    fun h ht => ?_, fun h ht hs => ?_, fun h ht hs hu => ?_, fun h => ?_,
    fun h => ?_, fun h => ?_, fun h => ?_, fun h => ?_, fun o ho ht => ?_,
    fun h => ?_, fun h => ?_⟩ <;>
    simp_all [normalizeRetrievalResult, normalizeReference, normalizeRAGText,
      normalizeRAGCitations, parseRetrievalResults]

/-- Witness for C9 at records and responses with every field absent. -/
theorem C9_normalization_total_witness :
    parseRetrievalResults ⟨none⟩ = [] ∧
    normalizeRAGText ⟨none, none⟩ = "No response generated" ∧
    normalizeRAGCitations ⟨none, none⟩ = [] ∧
    (normalizeRetrievalResult ⟨none, none, none, none⟩).content
      = "No content available" :=
  ⟨(C9_normalization_total ⟨none, none, none, none⟩ ⟨none, none⟩ ⟨none⟩
      ⟨none, none⟩ ⟨none⟩ ⟨none⟩).2.2.2.2.2.2.2.2.2.2.1 rfl,
    (C9_normalization_total ⟨none, none, none, none⟩ ⟨none, none⟩ ⟨none⟩
      ⟨none, none⟩ ⟨none⟩ ⟨none⟩).2.2.2.2.2.2.2.2.2.2.2.1 rfl,
    (C9_normalization_total ⟨none, none, none, none⟩ ⟨none, none⟩ ⟨none⟩
      ⟨none, none⟩ ⟨none⟩ ⟨none⟩).2.2.2.2.2.2.2.2.2.2.2.2.2.1 rfl,
    (C9_normalization_total ⟨none, none, none, none⟩ ⟨none, none⟩ ⟨none⟩
      ⟨none, none⟩ ⟨none⟩ ⟨none⟩).1 rfl⟩

/-- C7: when the boto3 `retrieve` call returns a response whose
`retrievalResults` list is `rs`, `POST /search` returns one normalized entry
per retrieval record, in the same order (the results list is exactly
`rs.map normalizeRetrievalResult`), and `total_results` is the length of
that list, which equals the number of upstream records. -/
theorem C7_search_order_and_count (KNOWLEDGE_BASE_ID now : String)
    (boto_retrieve : String → String → Int → Except String RetrieveResponseJson)
    (request : SearchRequest) (rs : List RetrievalResultJson)
    (hkb1 : pyOrStr request.knowledge_base_id KNOWLEDGE_BASE_ID ≠ "")
    (hkb2 : pyOrStr request.knowledge_base_id KNOWLEDGE_BASE_ID
      ≠ "YOUR_KNOWLEDGE_BASE_ID_HERE")
    (hresp : boto_retrieve (pyOrStr request.knowledge_base_id KNOWLEDGE_BASE_ID)
        request.query request.max_results = .ok ⟨some rs⟩) :
    search_knowledge_base (some ()) KNOWLEDGE_BASE_ID boto_retrieve request now =
      .ok ⟨request.query, rs.map normalizeRetrievalResult,
        (rs.map normalizeRetrievalResult).length,
        pyOrStr request.knowledge_base_id KNOWLEDGE_BASE_ID, now⟩ ∧
    (rs.map normalizeRetrievalResult).length = rs.length := by
  constructor
  · simp [search_knowledge_base, hkb1, hkb2, searchTryBody, hresp,
      BedrockKnowledgeBaseClient.query_knowledge_base, parseRetrievalResults]
  · simp

/-- Witness for C7: two records, one S3-located and one missing its
location, are returned in input order with `total_results = 2`. -/
theorem C7_search_order_and_count_witness :
    search_knowledge_base (some ()) "KB123"
        (fun _ _ _ => .ok ⟨some [⟨some ⟨some "first"⟩, some 1,
          some ⟨some "S3", some ⟨some "s3://bucket/key"⟩⟩, none⟩,
          ⟨some ⟨some "second"⟩, none, none, none⟩]⟩)
        (⟨"q", 5, none⟩ : SearchRequest) "t" =
      .ok ⟨"q", [⟨"first", 1, "S3", some "s3://bucket/key", []⟩,
        ⟨"second", 0, "Unknown", none, []⟩], 2, "KB123", "t"⟩ := by
  have h := C7_search_order_and_count "KB123" "t"
    (fun _ _ _ => .ok ⟨some [⟨some ⟨some "first"⟩, some 1,
      some ⟨some "S3", some ⟨some "s3://bucket/key"⟩⟩, none⟩,
      ⟨some ⟨some "second"⟩, none, none, none⟩]⟩)
    (⟨"q", 5, none⟩ : SearchRequest)
    [⟨some ⟨some "first"⟩, some 1,
      some ⟨some "S3", some ⟨some "s3://bucket/key"⟩⟩, none⟩,
      ⟨some ⟨some "second"⟩, none, none, none⟩]
    (by decide) (by decide) rfl
  simpa [normalizeRetrievalResult, pyOrStr] using h.1

/-- C1 fails as stated: when the outbound boto3 `retrieve` call raises, the
client method `BedrockKnowledgeBaseClient.query_knowledge_base` catches the
exception (test.py lines 120–122) and returns `{}`, so `POST /search`
returns a 200 success with an empty results list — not an internal-error
response carrying the exception message, which the endpoint's own handler
(main.py lines 202–204) would produce but never receives.  Concretely, with
the upstream call raising "AccessDeniedException", the endpoint returns an
empty success result. -/
theorem C1_counterexample :
    search_knowledge_base (some ()) "KB123"
        (fun _ _ _ => .error "AccessDeniedException")
        (⟨"q", 5, none⟩ : SearchRequest) "t" =
      .ok ⟨"q", [], 0, "KB123", "t"⟩ := rfl

/-- C1 (amended): when the outbound boto3 call raises, the client layer
swallows the exception and returns an empty response, and each endpoint
then returns a successful response built from that empty response —
`POST /search` an empty results list with `total_results = 0`,
`POST /summarize` the "No response generated" sentinel with no citations,
and `GET /knowledge-bases` an empty list.  The endpoints' internal-error
paths (HTTP 500 with the exception message) are not reached by an upstream
call failure. -/
theorem C1_amended_upstream_failure_swallowed
    (KNOWLEDGE_BASE_ID MODEL_ARN now msg : String)
    (sreq : SearchRequest) (mreq : SummarizeRequest)
    (hs1 : pyOrStr sreq.knowledge_base_id KNOWLEDGE_BASE_ID ≠ "")
    (hs2 : pyOrStr sreq.knowledge_base_id KNOWLEDGE_BASE_ID
      ≠ "YOUR_KNOWLEDGE_BASE_ID_HERE")
    (hm1 : pyOrStr mreq.knowledge_base_id KNOWLEDGE_BASE_ID ≠ "")
    (hm2 : pyOrStr mreq.knowledge_base_id KNOWLEDGE_BASE_ID
      ≠ "YOUR_KNOWLEDGE_BASE_ID_HERE") :
    search_knowledge_base (some ()) KNOWLEDGE_BASE_ID
        (fun _ _ _ => .error msg) sreq now =
      .ok ⟨sreq.query, [], 0,
        pyOrStr sreq.knowledge_base_id KNOWLEDGE_BASE_ID, now⟩ ∧
    summarize_with_knowledge_base (some ()) KNOWLEDGE_BASE_ID MODEL_ARN
        (fun _ _ _ _ => .error msg) mreq now =
      .ok ⟨mreq.query, "No response generated", [],
        pyOrStr mreq.knowledge_base_id KNOWLEDGE_BASE_ID,
        modelUsed (pyOrStr mreq.model_arn MODEL_ARN), now⟩ ∧
    list_knowledge_bases (some ()) (fun _ => .error msg) = .ok [] := by
  refine ⟨?_, ?_, ?_⟩
  · simp [search_knowledge_base, hs1, hs2, searchTryBody,
      BedrockKnowledgeBaseClient.query_knowledge_base, parseRetrievalResults]
  · simp [summarize_with_knowledge_base, hm1, hm2, summarizeTryBody,
      BedrockKnowledgeBaseClient.retrieve_and_generate, normalizeRAGText,
      normalizeRAGCitations]
  · simp [list_knowledge_bases, listKBTryBody,
      BedrockKnowledgeBaseClient.list_knowledge_bases]

/-- Witness for the amended C1 at a concrete configuration. -/
theorem C1_amended_upstream_failure_swallowed_witness :
    summarize_with_knowledge_base (some ()) "KB123" "model/x"
        (fun _ _ _ _ => .error "ThrottlingException")
        (⟨"q", 5, none, none⟩ : SummarizeRequest) "t" =
      .ok ⟨"q", "No response generated", [], "KB123", "x", "t"⟩ ∧
    list_knowledge_bases (some ())
        (fun _ => .error "ThrottlingException") = .ok [] := by
  have h := C1_amended_upstream_failure_swallowed "KB123" "model/x" "t"
    "ThrottlingException" (⟨"q", 5, none⟩ : SearchRequest)
    (⟨"q", 5, none, none⟩ : SummarizeRequest)
    (by decide) (by decide) (by decide) (by decide)
  exact ⟨h.2.1, h.2.2⟩

/-- C3: `POST /summarize` returns exactly one flattened citation per
retrieved reference, across every citation group in encounter order — in
general the number of citations is the sum of the group sizes, and for the
one-group-two-references shape the endpoint returns exactly those two
citations in order — and `model_used` is the substring after the last
slash of the model identifier (the decomposition below, with no slash
remaining in `modelUsed arn`, characterizes "after the last slash"). -/
theorem C3_summarize_flattening_and_model (KNOWLEDGE_BASE_ID MODEL_ARN now : String)
    (boto_rag : String → String → String → Int → Except String RAGResponseJson)
    (request : SummarizeRequest) (o : Option OutputJson)
    (a b : RetrievalResultJson)
    (hkb1 : pyOrStr request.knowledge_base_id KNOWLEDGE_BASE_ID ≠ "")
    (hkb2 : pyOrStr request.knowledge_base_id KNOWLEDGE_BASE_ID
      ≠ "YOUR_KNOWLEDGE_BASE_ID_HERE")
    (hresp : boto_rag (pyOrStr request.knowledge_base_id KNOWLEDGE_BASE_ID)
        request.query (pyOrStr request.model_arn MODEL_ARN) request.max_results
      = .ok ⟨o, some [⟨some [a, b]⟩]⟩) :
    summarize_with_knowledge_base (some ()) KNOWLEDGE_BASE_ID MODEL_ARN
        boto_rag request now =
      .ok ⟨request.query, normalizeRAGText ⟨o, some [⟨some [a, b]⟩]⟩,
        [normalizeReference a, normalizeReference b],
        pyOrStr request.knowledge_base_id KNOWLEDGE_BASE_ID,
        modelUsed (pyOrStr request.model_arn MODEL_ARN), now⟩ ∧
    (∀ resp : RAGResponseJson, (normalizeRAGCitations resp).length =
      ((resp.citations.getD []).map
        (fun grp => (grp.retrievedReferences.getD []).length)).sum) ∧
    (∀ arn : String, '/' ∈ arn.data →
      (∃ p, arn.data = p ++ '/' :: (modelUsed arn).data) ∧
        '/' ∉ (modelUsed arn).data) := by
  refine ⟨?_, ?_, ?_⟩
  · simp [summarize_with_knowledge_base, hkb1, hkb2, summarizeTryBody, hresp,
      BedrockKnowledgeBaseClient.retrieve_and_generate, normalizeRAGCitations]
  · intro resp
    simp [normalizeRAGCitations, List.length_flatMap, Function.comp_def,
      List.length_map]
  · exact modelUsed_after_last_slash

/-- Witness for C3: one citation group with two retrieved references yields
exactly those two citations in order, and the model name is the part of the
model identifier after its last slash. -/
theorem C3_summarize_flattening_and_model_witness :
    summarize_with_knowledge_base (some ()) "KB123" "bedrock/claude-v1"
        (fun _ _ _ _ => .ok ⟨some ⟨some "answer"⟩,
          some [⟨some [⟨some ⟨some "refA"⟩, none, none, none⟩,
            ⟨some ⟨some "refB"⟩, none, none, none⟩]⟩]⟩)
        (⟨"q", 5, none, none⟩ : SummarizeRequest) "t" =
      .ok ⟨"q", "answer", [⟨"refA", none, []⟩, ⟨"refB", none, []⟩],
        "KB123", "claude-v1", "t"⟩ := by
  have h := C3_summarize_flattening_and_model "KB123" "bedrock/claude-v1" "t"
    (fun _ _ _ _ => .ok ⟨some ⟨some "answer"⟩,
      some [⟨some [⟨some ⟨some "refA"⟩, none, none, none⟩,
        ⟨some ⟨some "refB"⟩, none, none, none⟩]⟩]⟩)
    (⟨"q", 5, none, none⟩ : SummarizeRequest)
    (some ⟨some "answer"⟩)
    ⟨some ⟨some "refA"⟩, none, none, none⟩
    ⟨some ⟨some "refB"⟩, none, none, none⟩
    (by decide) (by decide) rfl
  exact h.1
